import Mathlib

/-!
Verification development for the multi-agent education orchestration sample.

The Lean definitions below are a shallow embedding of the Python sources:
  * `LambdaSns`    embeds `src/lambda_sns_eum/lambda_sns_handler.py`
  * `Orchestrator` embeds `src/agents/orchestrator_agentcore_runtime_gateway.py`
  * `DomainTools`  embeds the persona guards of the domain-tool agents
  * `MockData`     embeds `src/agents/mock_data_generator.py` (student data)

External collaborators (Cognito, SSM, the gateway, the model, the WhatsApp
transport, the random source) are passed in as explicit parameters: a
directory is an `Except`-valued list of users, a network call is an
`Except`-valued function, randomness is an oracle of draws.  Python string
truthiness (`if s:`) is modelled by `truthyStr`; a Python function that can
raise is modelled as returning `Except String`.
-/

/-- Python truthiness of an optional string: `None` and `""` are falsy,
any other string is truthy (returned unchanged). -/
def truthyStr : Option String → Option String
  | some s => if s = "" then none else some s
  | none => none

/-- Python `s.replace(c, '')` for a one-character pattern: drop every
occurrence of the character. -/
def removeAll (c : Char) (s : String) : String :=
  ⟨s.data.filter (fun d => d ≠ c)⟩

/-- Python `s[:n]` on a string: the first `n` characters. -/
def strTake (s : String) (n : Nat) : String :=
  ⟨s.data.take n⟩

namespace LambdaSns

/-! ### Cognito directory lookup (`get_user_persona_by_phone`) -/

/-- One Cognito user record, as consumed by the handler: a username and the
`Attributes` list of name/value pairs. -/
structure CognitoUser where
  username : String
  attributes : List (String × String)
  deriving DecidableEq

/-- The attribute scan loop of `get_user_persona_by_phone`: walk the
`Attributes` list once, recording the values seen for `phone_number` and
`custom:persona` (a later occurrence overwrites an earlier one, as the
Python loop assignment does).  Returns `(phone_attr, persona_attr)`. -/
def scanAttributes (attrs : List (String × String)) : Option String × Option String :=
  attrs.foldl
    (fun acc attr =>
      if attr.1 = "phone_number" then (some attr.2, acc.2)
      else if attr.1 = "custom:persona" then (acc.1, some attr.2)
      else acc)
    (none, none)

/-- Python `phone_number.startswith('+')`: the first character is `+`. -/
def startsWithPlus (p : String) : Bool :=
  match p.data with
  | d :: _ => d = '+'
  | [] => false

/-- Phone normalization at the top of `get_user_persona_by_phone`: ensure a
leading `+`. -/
def normalize_phone (p : String) : String :=
  if startsWithPlus p then p else "+" ++ p

/-- The match test `if phone_attr and phone_attr == phone_number`:
the recorded phone attribute must be truthy and equal to the target. -/
def phoneMatches (u : CognitoUser) (target : String) : Bool :=
  match truthyStr (scanAttributes u.attributes).1 with
  | some s => s = target
  | none => false

/-- The value returned for a matched user:
`persona_attr if persona_attr else 'student'`. -/
def personaOfUser (u : CognitoUser) : String :=
  match truthyStr (scanAttributes u.attributes).2 with
  | some p => p
  | none => "student"

/-- The paginated user scan: return the persona of the first user whose
phone attribute matches, else `student`. -/
def findPersona : List CognitoUser → String → String
  | [], _ => "student"
  | u :: rest, target =>
    if phoneMatches u target then personaOfUser u else findPersona rest target

/-- Embedding of `get_user_persona_by_phone`.  The directory argument is the
outcome of listing the user pool: `.error` models a Cognito service error,
which the Python `except` clause converts into the default `student`.
The function is total: no exception escapes. -/
def get_user_persona_by_phone (directory : Except String (List CognitoUser))
    (phoneNumber : String) : String :=
  match directory with
  | .error _ => "student"
  | .ok users => findPersona users (normalize_phone phoneNumber)

/-- The fixed remapping step in `lambda_handler`:
`if user_persona == "professor": user_persona = "teacher"`. -/
def remapPersona (p : String) : String :=
  if p = "professor" then "teacher" else p

/-! ### Session id derivation and the UTC hour bucket -/

/-- A UTC instant: the fields of `datetime.utcnow()` down to the minute
(sub-hour detail is carried so that the hour bucket can be seen to ignore
it; seconds behave like minutes and are omitted). -/
structure UTCTime where
  year : Nat
  month : Nat
  day : Nat
  hour : Nat
  minute : Nat
  deriving DecidableEq

/-- Gregorian leap-year test, as in `datetime`. -/
def isLeapYear (y : Nat) : Bool :=
  (y % 4 == 0 && y % 100 != 0) || (y % 400 == 0)

/-- Days in a month of the proleptic Gregorian calendar. -/
def daysInMonth (y m : Nat) : Nat :=
  if m = 2 then (if isLeapYear y then 29 else 28)
  else if m = 4 ∨ m = 6 ∨ m = 9 ∨ m = 11 then 30
  else 31

/-- Advancing a UTC instant by one hour (`t + timedelta(hours=1)`),
with day/month/year carry. -/
def addHour (t : UTCTime) : UTCTime :=
  if t.hour < 23 then { t with hour := t.hour + 1 }
  else if t.day < daysInMonth t.year t.month then
    { t with hour := 0, day := t.day + 1 }
  else if t.month < 12 then
    { t with hour := 0, day := 1, month := t.month + 1 }
  else
    { t with hour := 0, day := 1, month := 1, year := t.year + 1 }

/-- Two-digit zero-padded decimal rendering, as `strftime` `%m`/`%d`/`%H`
produce for values below 100. -/
def pad2 (n : Nat) : String :=
  ⟨[Nat.digitChar (n / 10), Nat.digitChar (n % 10)]⟩

/-- Four-digit zero-padded decimal rendering, as `strftime` `%Y` produces
for years below 10000. -/
def pad4 (n : Nat) : String :=
  ⟨[Nat.digitChar (n / 1000 % 10), Nat.digitChar (n / 100 % 10),
    Nat.digitChar (n / 10 % 10), Nat.digitChar (n % 10)]⟩

/-- The hour bucket `datetime.utcnow().strftime('%Y-%m-%d-%H')`. -/
def hour_timestamp (t : UTCTime) : String :=
  pad4 t.year ++ "-" ++ pad2 t.month ++ "-" ++ pad2 t.day ++ "-" ++ pad2 t.hour

/-- The phone cleanup in `lambda_handler`:
`sender_phone.replace('+', '').replace('-', '').replace(' ', '')`
(each a one-character pattern, so each replace drops a character). -/
def clean_phone (senderPhone : String) : String :=
  removeAll ' ' (removeAll '-' (removeAll '+' senderPhone))

/-- The session id built in `lambda_handler`:
`f"whatsapp-{clean_phone}-{hour_timestamp}-{phone_hash[:8]}"`, where
`phone_hash = hashlib.sha256(sender_phone.encode()).hexdigest()` is
abstracted as the `sha256hex` parameter. -/
def session_id (sha256hex : String → String) (senderPhone : String)
    (now : UTCTime) : String :=
  "whatsapp-" ++ clean_phone senderPhone ++ "-" ++ hour_timestamp now
    ++ "-" ++ strTake (sha256hex senderPhone) 8

/-- Modelled from the spec formula in section 4.2: `session_id =
"whatsapp-" + normalized_phone + "-" + hour_bucket(now, UTC) + "-" +
first_8_hex(sha256(raw_phone))`, where the normalized phone is the sender
phone with `+`, `-` and spaces removed. -/
def session_id_spec (sha256hex : String → String) (rawPhone : String)
    (now : UTCTime) : String :=
  let normalizedPhone := clean_phone rawPhone
  let hourBucket := hour_timestamp now
  let first8hex := strTake (sha256hex rawPhone) 8
  "whatsapp-" ++ normalizedPhone ++ "-" ++ hourBucket ++ "-" ++ first8hex

/-! ### The SNS event handler (`lambda_handler`) -/

/-- One entry of `value['messages']`, with the fields the handler reads. -/
structure WhatsAppMessage where
  type : Option String
  sender : String
  msgId : String
  textBody : Option String
  deriving DecidableEq

/-- One entry of `changes`, projected to its `value`: whether the value has
a `statuses` key, its `messages` list, and the contact profile names. -/
structure WebhookValue where
  hasStatuses : Bool
  messages : List WhatsAppMessage
  contactNames : List String
  deriving DecidableEq

/-- One SNS record, decoded down to the webhook entry's `changes` list. -/
structure SnsRecord where
  changes : List WebhookValue
  deriving DecidableEq

/-- The payload posted to the AgentCore runtime by the handler. -/
structure RuntimePayload where
  inputText : String
  persona : String
  user_id : String
  persona_id : String
  whatsapp_phone_number : String
  deriving DecidableEq

/-- Externally visible calls the handler makes, in order. -/
inductive HandlerAction where
  | markRead (msgId : String)
  | invokeRuntime (sessionId : String) (payload : RuntimePayload)
  deriving DecidableEq

/-- External collaborators of the handler. -/
structure HandlerEnv where
  /-- Outcome of listing the Cognito user pool. -/
  directory : Except String (List CognitoUser)
  /-- Outcome of the `send_whatsapp_message` read-receipt call. -/
  sendRead : String → Except String Unit
  /-- Outcome of `invoke_agent_runtime` for a session id and payload. -/
  runtime : String → RuntimePayload → Except String String
  /-- The current UTC time, read once per event. -/
  now : UTCTime
  /-- The sha256 hex digest function. -/
  sha256hex : String → String

/-- Embedding of `markAsRead`: attempt the read-receipt send; on any error,
catch it, log, and return `None`.  The function is total, so a failed
acknowledgment can never abort the caller. -/
def markAsRead (env : HandlerEnv) (msgId : String) : Option Unit :=
  match env.sendRead msgId with
  | .ok r => some r
  | .error _ => none

/-- The content extraction switch on `message['type']` (default `text`). -/
def messageContent (m : WhatsAppMessage) : String :=
  let t := m.type.getD "text"
  if t = "text" then m.textBody.getD ""
  else if t = "image" then "[Usuário enviou uma imagem]"
  else if t = "audio" then "[Usuário enviou um áudio]"
  else if t = "video" then "[Usuário enviou um vídeo]"
  else if t = "document" then "[Usuário enviou um documento]"
  else "[Usuário enviou " ++ t ++ "]"

/-- Processing of one SNS record inside the loop of `lambda_handler`:
skip when there are no changes, when the value carries a `statuses` key, or
when it has no messages; otherwise acknowledge the message, resolve the
persona, derive the session id, and invoke the runtime.  The `Except`
result is `.error` exactly when the runtime invocation raises (which aborts
the surrounding loop); the action list records the external calls made. -/
def processRecord (env : HandlerEnv) (r : SnsRecord) :
    Except String Unit × List HandlerAction :=
  match r.changes with
  | [] => (.ok (), [])
  | value :: _ =>
    if value.hasStatuses then (.ok (), [])
    else
      match value.messages with
      | [] => (.ok (), [])
      | message :: _ =>
        -- Marcar mensagem como lida imediatamente (result ignored)
        let _ := markAsRead env message.msgId
        let userMessage := messageContent message
        let userPersona :=
          remapPersona (get_user_persona_by_phone env.directory message.sender)
        let cleanedPhone := clean_phone message.sender
        let sid := session_id env.sha256hex message.sender env.now
        let payload : RuntimePayload :=
          { inputText := userMessage
            persona := userPersona
            user_id := cleanedPhone
            persona_id := cleanedPhone
            whatsapp_phone_number := message.sender }
        match env.runtime sid payload with
        | .ok _ => (.ok (), [.markRead message.msgId, .invokeRuntime sid payload])
        | .error e => (.error e, [.markRead message.msgId, .invokeRuntime sid payload])

/-- The HTTP-style result of `lambda_handler`. -/
structure HandlerResult where
  statusCode : Nat
  success : Bool
  deriving DecidableEq

/-- The record loop with the surrounding `try`: records are processed in
order; the first uncaught exception stops the loop and yields the 500
response, otherwise the 200 response is returned. -/
def runRecords (env : HandlerEnv) : List SnsRecord → HandlerResult × List HandlerAction
  | [] => ({ statusCode := 200, success := true }, [])
  | r :: rest =>
    match processRecord env r with
    | (.ok _, acts) =>
      let (res, more) := runRecords env rest
      (res, acts ++ more)
    | (.error _, acts) => ({ statusCode := 500, success := false }, acts)

/-- Embedding of `lambda_handler` over the decoded records of one event. -/
def lambda_handler (env : HandlerEnv) (records : List SnsRecord) :
    HandlerResult × List HandlerAction :=
  runRecords env records

end LambdaSns

namespace Orchestrator

/-- Python `payload.get("inputText") or payload.get("prompt")` followed by
the `if not user_message` check: the first truthy value of the two, if
any. -/
def firstTruthy (a b : Option String) : Option String :=
  match truthyStr a with
  | some s => some s
  | none => truthyStr b

/-! ### Memory id resolution (`get_memory_id`) -/

/-- The orchestration request payload fields read by `invoke`.  An absent
JSON key is `none`. -/
structure Payload where
  inputText : Option String
  prompt : Option String
  persona : Option String
  user_id : Option String
  persona_id : Option String
  whatsapp_phone_number : Option String
  memory_id : Option String
  deriving DecidableEq

/-- Embedding of `get_memory_id`.  Sources, in order: the payload key
(`if "memory_id" in payload`, a presence test), the process-wide cache
(`if memory_id_cache`, a truthiness test), the SSM parameter (an external
call that may fail), and the `MEMORY_ID` environment variable (truthiness).
Returns the resolved id together with the updated cache; errs when all four
sources are exhausted. -/
def get_memory_id (payload : Payload) (cache : Option String)
    (ssm : Except String String) (envMemoryId : Option String) :
    Except String (String × Option String) :=
  match payload.memory_id with
  | some m => .ok (m, cache)
  | none =>
    match truthyStr cache with
    | some c => .ok (c, cache)
    | none =>
      match ssm with
      | .ok v => .ok (v, some v)
      | .error _ =>
        match truthyStr envMemoryId with
        | some m => .ok (m, some m)
        | none =>
          .error ("memory_id is required but not found in payload, SSM, or environment. "
            ++ "Please provide memory_id in the request payload or configure it in SSM.")

/-! ### Tool assembly with fallback (`create_orchestrator_agent_runtime`) -/

/-- The fixed local tool set registered as `base_tools` (five sub-agent
tools plus the retrieval tool). -/
def base_tools : List String :=
  ["answer_student_questions", "answer_teacher_questions",
   "answer_payment_questions", "answer_admin_questions",
   "answer_general_questions", "retrieve"]

/-- The `valid_personas` list checked at the top of
`create_orchestrator_agent_runtime`. -/
def valid_personas : List String := ["student", "teacher", "administrator"]

/-- Embedding of `create_orchestrator_agent_runtime`.  After the persona
check, `with mcp_client:` establishes the gateway session (`mcpEnter`, a
fallible network step sitting OUTSIDE the try/except: its failure
propagates with no fallback).  Inside the context, the `try` block fetches
the gateway catalog (`list_tools_sync`, abstracted as `listToolsSync`) and
invokes the agent with the unioned tool list (`invokeAgent`, abstracting
agent construction plus the model call on the contextualized query).  The
`except` block retries the invocation with `base_tools` only, and its
outcome is returned without further handling.  The second component
records the tool list of each invocation attempt, in order. -/
def create_orchestrator_agent_runtime (persona : String)
    (mcpEnter : Except String Unit)
    (listToolsSync : Except String (List String))
    (invokeAgent : List String → Except String String) :
    Except String String × List (List String) :=
  if persona ∈ valid_personas then
    match mcpEnter with
    | .error e => (.error e, [])
    | .ok _ =>
      match listToolsSync with
      | .ok mcpTools =>
        let allTools := base_tools ++ mcpTools
        match invokeAgent allTools with
        | .ok r => (.ok r, [allTools])
        | .error _ => (invokeAgent base_tools, [allTools, base_tools])
      | .error _ => (invokeAgent base_tools, [base_tools])
  else
    (.error ("Invalid persona " ++ persona ++ ". Must be one of: student, teacher, administrator"), [])

/-! ### The runtime entrypoint (`invoke`) -/

/-- Externally visible steps of `invoke` after validation, in order. -/
inductive InvokeEffect where
  | memoryClientInit
  | memoryConfigBuilt (memoryId sessionId actorId : String)
  | modelInvoked (tools : List String)
  deriving DecidableEq

/-- The response dictionary of a successful `invoke`. -/
structure InvokeResult where
  result : String
  session_id : String
  persona : String
  deriving DecidableEq

/-- Embedding of the `@app.entrypoint` function `invoke`.  Validation reads
`inputText or prompt`, `persona`, `user_id` (payload) and `session_id`
(context), each under Python truthiness; then the memory id is resolved,
the memory client is initialized if needed, the memory configuration is
built, and `create_orchestrator_agent_runtime` runs.  Any failure is
re-raised (an `.error` result); the effect list records the work performed
before the outcome. -/
def invoke (payload : Payload) (sessionId : Option String)
    (cache : Option String) (memClientReady : Bool)
    (ssm : Except String String) (envMemoryId : Option String)
    (mcpEnter : Except String Unit)
    (listToolsSync : Except String (List String))
    (invokeAgent : List String → Except String String) :
    Except String InvokeResult × List InvokeEffect :=
  match firstTruthy payload.inputText payload.prompt with
  | none => (.error "Payload must include inputText or prompt parameter", [])
  | some _userMessage =>
    match truthyStr payload.persona with
    | none => (.error "Payload must include persona parameter (student/teacher/administrator)", [])
    | some persona =>
      match truthyStr payload.user_id with
      | none => (.error "Payload must include user_id parameter", [])
      | some userId =>
        match truthyStr sessionId with
        | none => (.error "Context must include session_id", [])
        | some sid =>
          match get_memory_id payload cache ssm envMemoryId with
          | .error e => (.error e, [])
          | .ok (memoryId, _) =>
            let initEffects : List InvokeEffect :=
              if memClientReady then [] else [.memoryClientInit]
            let (orchResult, attempts) :=
              create_orchestrator_agent_runtime persona mcpEnter listToolsSync invokeAgent
            let effects := initEffects
              ++ [.memoryConfigBuilt memoryId sid userId]
              ++ attempts.map .modelInvoked
            match orchResult with
            | .ok msg => (.ok { result := msg, session_id := sid, persona := persona }, effects)
            | .error e => (.error e, effects)

end Orchestrator

namespace DomainTools

/-! ### Persona guards of the domain tools -/

/-- Work a domain tool performs past its persona guard. -/
inductive ToolEffect where
  | mockDataGenerated
  | modelCalled
  deriving DecidableEq

/-- Embedding of `answer_admin_questions`
(`virtual_secretary_agent.py`): deny any persona other than
`administrator` with a descriptive string and no further work; otherwise
generate mock admin data and run the secretary agent on the formatted
context (abstracted as `agentRun`). -/
def answer_admin_questions (query persona : String)
    (agentRun : String → String) : String × List ToolEffect :=
  if persona ≠ "administrator" then
    ("Access denied: This tool is only available for administrator personas. Current persona: "
      ++ persona, [])
  else
    (agentRun query, [.mockDataGenerated, .modelCalled])

/-- Embedding of `answer_student_questions`
(`educational_assistant_agent.py`): deny personas outside
`{student, administrator}`. -/
def answer_student_questions (query studentId persona : String)
    (agentRun : String → String) : String × List ToolEffect :=
  if persona ∉ ["student", "administrator"] then
    ("Access denied: This tool is only available for student and administrator personas. Current persona: "
      ++ persona, [])
  else
    (agentRun query, [.mockDataGenerated, .modelCalled])

/-- Embedding of `answer_teacher_questions`
(`teacher_assistant_agent.py`): deny personas outside
`{teacher, administrator}`. -/
def answer_teacher_questions (query teacherId persona : String)
    (agentRun : String → String) : String × List ToolEffect :=
  if persona ∉ ["teacher", "administrator"] then
    ("Access denied: This tool is only available for teacher and administrator personas. Current persona: "
      ++ persona, [])
  else
    (agentRun query, [.mockDataGenerated, .modelCalled])

end DomainTools

namespace MockData

/-! ### Student mock data (`generate_student_data`) -/

/-- `models.core.Course`. -/
structure Course where
  course_id : String
  course_name : String
  teacher_name : String
  deriving DecidableEq

/-- `models.core.Grade`; the grade value is modelled as a rational. -/
structure Grade where
  course_id : String
  course_name : String
  grade : ℚ
  deriving DecidableEq

/-- `models.core.PendingTask`. -/
structure PendingTask where
  task_id : String
  course_name : String
  course_id : String
  due_date : String
  deriving DecidableEq

/-- `models.core.StudentData`. -/
structure StudentData where
  student_id : String
  student_name : String
  enrolled_courses : List Course
  pending_tasks : List PendingTask
  grades : List Grade
  focus_areas : List String
  deriving DecidableEq

/-- `random.uniform(lo, hi)` as `lo + (hi - lo) * u` for an underlying
`random()` draw `u` in `[0, 1)`. -/
def uniform (lo hi u : ℚ) : ℚ := lo + (hi - lo) * u

/-- Python `round(x, 1)`: round to one decimal place (tie behaviour is
immaterial for the bounds proved here). -/
def round1 (x : ℚ) : ℚ := (round (x * 10) : ℤ) / 10

/-- The random draws consumed by the course loop of
`generate_student_data`, indexed by course position (and task position). -/
structure RandomSource where
  /-- The `random()` value behind `uniform(3.0, 10.0)` for course `i`. -/
  gradeU : Nat → ℚ
  /-- `secrets.choice(TEACHER_NAMES)` for course `i`. -/
  teacherPick : Nat → String
  /-- `secrets.randbelow(4)` pending-task count for course `i`. -/
  numTasks : Nat → Nat
  /-- The generated task id for course `i`, task `j`. -/
  taskId : Nat → Nat → String
  /-- The generated due date for course `i`, task `j`. -/
  dueDate : Nat → Nat → String

/-- The four lists accumulated by the course loop of
`generate_student_data`. -/
structure LoopOut where
  enrolled_courses : List Course
  grades : List Grade
  pending_tasks : List PendingTask
  focus_areas : List String
  deriving DecidableEq

/-- The per-course loop body of `generate_student_data`: for each selected
course name (with its enumeration index) build the course record, draw and
round the grade, append the course name to the focus areas when the grade
is below 5.0, and generate the pending tasks. -/
def courseLoop (r : RandomSource) : List String → Nat → LoopOut
  | [], _ => ⟨[], [], [], []⟩
  | name :: rest, i =>
    -- `f"{course_name[:4].upper()}-{100 + i}"`
    let courseId : String :=
      ⟨(name.data.take 4).map Char.toUpper⟩ ++ "-" ++ toString (100 + i)
    let course : Course :=
      { course_id := courseId, course_name := name, teacher_name := r.teacherPick i }
    let gradeValue := round1 (uniform 3 10 (r.gradeU i))
    let grade : Grade :=
      { course_id := courseId, course_name := name, grade := gradeValue }
    let tasks := (List.range (r.numTasks i)).map fun j =>
      PendingTask.mk (r.taskId i j) name courseId (r.dueDate i j)
    let out := courseLoop r rest (i + 1)
    { enrolled_courses := course :: out.enrolled_courses
      grades := grade :: out.grades
      pending_tasks := tasks ++ out.pending_tasks
      focus_areas := (if gradeValue < 5 then [name] else []) ++ out.focus_areas }

/-- Embedding of `generate_student_data`: the student id and name and the
sampled course list are inputs (they are drawn before the loop), and the
loop populates the four lists. -/
def generate_student_data (studentId studentName : String)
    (selectedCourses : List String) (r : RandomSource) : StudentData :=
  let out := courseLoop r selectedCourses 0
  { student_id := studentId
    student_name := studentName
    enrolled_courses := out.enrolled_courses
    pending_tasks := out.pending_tasks
    grades := out.grades
    focus_areas := out.focus_areas }

end MockData

/-! ## Helper lemmas -/

/-- A user scan over users none of which match yields the default persona. -/
theorem findPersona_of_no_match {users : List LambdaSns.CognitoUser} {target : String}
    (h : ∀ u ∈ users, LambdaSns.phoneMatches u target = false) :
    LambdaSns.findPersona users target = "student" := by
  induction users with
  | nil => rfl
  | cons u rest ih =>
    have hu := h u (List.mem_cons_self u rest)
    simp only [LambdaSns.findPersona, hu, Bool.false_eq_true, if_false]
    exact ih fun v hv => h v (List.mem_cons_of_mem _ hv)

/-- A user scan returns the persona of the first matching user. -/
theorem findPersona_first_match {pre post : List LambdaSns.CognitoUser}
    {u : LambdaSns.CognitoUser} {target : String}
    (hpre : ∀ v ∈ pre, LambdaSns.phoneMatches v target = false)
    (hu : LambdaSns.phoneMatches u target = true) :
    LambdaSns.findPersona (pre ++ u :: post) target = LambdaSns.personaOfUser u := by
  induction pre with
  | nil => simp [LambdaSns.findPersona, hu]
  | cons v rest ih =>
    have hv := hpre v (List.mem_cons_self v rest)
    simp only [List.cons_append, LambdaSns.findPersona, hv, Bool.false_eq_true, if_false]
    exact ih fun w hw => hpre w (List.mem_cons_of_mem _ hw)

/-- Record processing does not read the outcome of the read-receipt call:
the `markAsRead` result is discarded. -/
theorem processRecord_sendRead_irrelevant (env : LambdaSns.HandlerEnv)
    (send1 send2 : String → Except String Unit) (r : LambdaSns.SnsRecord) :
    LambdaSns.processRecord { env with sendRead := send1 } r
      = LambdaSns.processRecord { env with sendRead := send2 } r := rfl

/-- The whole handler is insensitive to the read-receipt outcome. -/
theorem lambda_handler_sendRead_irrelevant (env : LambdaSns.HandlerEnv)
    (send1 send2 : String → Except String Unit)
    (records : List LambdaSns.SnsRecord) :
    LambdaSns.lambda_handler { env with sendRead := send1 } records
      = LambdaSns.lambda_handler { env with sendRead := send2 } records := by
  induction records with
  | nil => rfl
  | cons r rest ih =>
    show LambdaSns.runRecords _ (r :: rest) = LambdaSns.runRecords _ (r :: rest)
    rw [LambdaSns.runRecords, LambdaSns.runRecords,
      processRecord_sendRead_irrelevant env send1 send2 r]
    cases hpr : LambdaSns.processRecord { env with sendRead := send2 } r with
    | mk res acts =>
      cases res with
      | ok a =>
        have ihr : LambdaSns.runRecords { env with sendRead := send1 } rest
            = LambdaSns.runRecords { env with sendRead := send2 } rest := ih
        simp [ihr]
      | error e => simp

/-- String append acts as list append on the character data. -/
theorem str_data_append (a b : String) : (a ++ b).data = a.data ++ b.data := rfl

/-- Two strings with the same character data are equal. -/
theorem str_ext {a b : String} (h : a.data = b.data) : a = b :=
  congrArg String.mk h

/-- Code point of a decimal digit character. -/
theorem digitChar_toNat (k : Nat) (hk : k < 10) :
    (Nat.digitChar k).toNat = 48 + k := by
  interval_cases k <;> rfl

/-- Decode the last two characters of a string as a two-digit decimal
number (used to read the hour field back out of a bucket string). -/
def lastTwoVal (s : String) : Nat :=
  match s.data.reverse with
  | c2 :: c1 :: _ => 10 * (c1.toNat - 48) + (c2.toNat - 48)
  | _ => 0

/-- Appending a two-digit rendering makes its value the last-two-digit
value of the result. -/
theorem lastTwoVal_append_pad2 (s : String) (n : Nat) (hn : n < 100) :
    lastTwoVal (s ++ LambdaSns.pad2 n) = n := by
  have hrev : (s ++ LambdaSns.pad2 n).data.reverse
      = Nat.digitChar (n % 10) :: Nat.digitChar (n / 10) :: s.data.reverse := by
    rw [str_data_append]
    simp [LambdaSns.pad2]
  unfold lastTwoVal
  rw [hrev]
  show 10 * ((Nat.digitChar (n / 10)).toNat - 48)
      + ((Nat.digitChar (n % 10)).toNat - 48) = n
  rw [digitChar_toNat (n / 10) (by omega), digitChar_toNat (n % 10) (by omega)]
  omega

/-- The hour field is recoverable from the bucket string. -/
theorem lastTwoVal_hour_timestamp (t : LambdaSns.UTCTime) (h : t.hour < 100) :
    lastTwoVal (LambdaSns.hour_timestamp t) = t.hour := by
  unfold LambdaSns.hour_timestamp
  exact lastTwoVal_append_pad2 _ t.hour h

/-- The hour field after advancing one hour. -/
theorem addHour_hour (t : LambdaSns.UTCTime) :
    (LambdaSns.addHour t).hour = if t.hour < 23 then t.hour + 1 else 0 := by
  unfold LambdaSns.addHour
  by_cases h : t.hour < 23
  · simp [h]
  · simp only [h, if_false]
    split
    · rfl
    · split <;> rfl

/-- The session id splits into the fixed prefix, the bucket, and the fixed
suffix at the data level. -/
theorem session_id_data (sha : String → String) (p : String)
    (t : LambdaSns.UTCTime) :
    (LambdaSns.session_id sha p t).data
      = ("whatsapp-" ++ LambdaSns.clean_phone p ++ "-").data
        ++ ((LambdaSns.hour_timestamp t).data
          ++ ("-" ++ strTake (sha p) 8).data) := by
  simp [LambdaSns.session_id, str_data_append, List.append_assoc]

/-- Equal session ids for the same phone force equal hour buckets. -/
theorem hour_timestamp_of_session_id_eq (sha : String → String) (p : String)
    (t1 t2 : LambdaSns.UTCTime)
    (h : LambdaSns.session_id sha p t1 = LambdaSns.session_id sha p t2) :
    LambdaSns.hour_timestamp t1 = LambdaSns.hour_timestamp t2 := by
  have hd := congrArg String.data h
  rw [session_id_data, session_id_data] at hd
  exact str_ext (List.append_cancel_right (List.append_cancel_left hd))

/-- Bounds of one generated grade: rounding `uniform(3.0, 10.0)` to one
decimal stays within `[3, 10]` for any underlying draw in `[0, 1)`. -/
theorem round1_uniform_bounds (u : ℚ) (h0 : 0 ≤ u) (h1 : u < 1) :
    3 ≤ MockData.round1 (MockData.uniform 3 10 u)
    ∧ MockData.round1 (MockData.uniform 3 10 u) ≤ 10 := by
  have hx3 : (30 : ℚ) ≤ MockData.uniform 3 10 u * 10 := by
    simp only [MockData.uniform]; nlinarith
  have hx10 : MockData.uniform 3 10 u * 10 < 100 := by
    simp only [MockData.uniform]; nlinarith
  have habs := abs_sub_round (MockData.uniform 3 10 u * 10)
  rw [abs_le] at habs
  set n : ℤ := round (MockData.uniform 3 10 u * 10) with hn
  have hlow : (29 : ℚ) < (n : ℚ) := by linarith [habs.2]
  have hhigh : (n : ℚ) < 101 := by linarith [habs.1]
  have hlow' : (30 : ℤ) ≤ n := by
    have : (29 : ℤ) < n := by exact_mod_cast hlow
    omega
  have hhigh' : n ≤ 100 := by
    have : n < (101 : ℤ) := by exact_mod_cast hhigh
    omega
  have hlq : (30 : ℚ) ≤ (n : ℚ) := by exact_mod_cast hlow'
  have hhq : (n : ℚ) ≤ 100 := by exact_mod_cast hhigh'
  constructor
  · rw [MockData.round1, ← hn, le_div_iff₀ (by norm_num : (0 : ℚ) < 10)]
    linarith
  · rw [MockData.round1, ← hn, div_le_iff₀ (by norm_num : (0 : ℚ) < 10)]
    linarith

/-- Invariants of the course loop: every grade lies in `[3, 10]`, the
focus areas are exactly the course names of the grades below 5 in order,
and grades and enrolled courses list the same course names in the same
order. -/
theorem courseLoop_invariants (r : MockData.RandomSource)
    (h : ∀ i, 0 ≤ r.gradeU i ∧ r.gradeU i < 1) (names : List String) :
    ∀ i : Nat,
      (∀ g ∈ (MockData.courseLoop r names i).grades, 3 ≤ g.grade ∧ g.grade ≤ 10)
      ∧ (MockData.courseLoop r names i).focus_areas
          = ((MockData.courseLoop r names i).grades.filter
              (fun g => g.grade < 5)).map (fun g => g.course_name)
      ∧ (MockData.courseLoop r names i).grades.map (fun g => g.course_name)
          = (MockData.courseLoop r names i).enrolled_courses.map
              (fun c => c.course_name) := by
  induction names with
  | nil =>
    intro i
    refine ⟨?_, rfl, rfl⟩
    intro g hg
    simp [MockData.courseLoop] at hg
  | cons name rest ih =>
    intro i
    obtain ⟨ih1, ih2, ih3⟩ := ih (i + 1)
    refine ⟨?_, ?_, ?_⟩
    · intro g hg
      simp only [MockData.courseLoop, List.mem_cons] at hg
      rcases hg with hg | hg
      · subst hg
        exact round1_uniform_bounds (r.gradeU i) (h i).1 (h i).2
      · exact ih1 g hg
    · simp only [MockData.courseLoop, List.filter_cons]
      by_cases hcase : MockData.round1 (MockData.uniform 3 10 (r.gradeU i)) < 5
      · simp [hcase, ih2]
      · simp [hcase, ih2]
    · simp only [MockData.courseLoop, List.map_cons, ih3]

/-- C10: every `StudentData` produced by `generate_student_data` has
grades within the 0-10 scale (each drawn from `[3.0, 10.0]` and rounded),
its focus areas are exactly the names of the enrolled courses whose grade
is strictly below 5.0 in enrollment order, and grades line up one-to-one
with the enrolled courses. -/
theorem C10_student_data_invariants (studentId studentName : String)
    (selected : List String) (r : MockData.RandomSource)
    (h : ∀ i, 0 ≤ r.gradeU i ∧ r.gradeU i < 1) :
    (∀ g ∈ (MockData.generate_student_data studentId studentName selected r).grades,
        0 ≤ g.grade ∧ 3 ≤ g.grade ∧ g.grade ≤ 10)
    ∧ (MockData.generate_student_data studentId studentName selected r).focus_areas
        = ((MockData.generate_student_data studentId studentName selected r).grades.filter
            (fun g => g.grade < 5)).map (fun g => g.course_name)
    ∧ (MockData.generate_student_data studentId studentName selected r).grades.map
          (fun g => g.course_name)
        = (MockData.generate_student_data studentId studentName selected
            r).enrolled_courses.map (fun c => c.course_name) := by
  obtain ⟨h1, h2, h3⟩ := courseLoop_invariants r h selected 0
  refine ⟨?_, h2, h3⟩
  intro g hg
  obtain ⟨hg3, hg10⟩ := h1 g hg
  exact ⟨by linarith, hg3, hg10⟩

/-- Witness for C10 at a concrete input: two sampled courses with the
underlying draw fixed at one half give grades 6.5 and empty focus areas. -/
theorem C10_student_data_invariants_witness :
    (∀ g ∈ (MockData.generate_student_data "STU-001" "João Silva"
        ["Mathematics", "History"]
        ⟨fun _ => 1 / 2, fun _ => "Prof. Silva", fun _ => 1,
         fun _ _ => "TASK-1000", fun _ _ => "2026-10-13"⟩).grades,
        0 ≤ g.grade ∧ 3 ≤ g.grade ∧ g.grade ≤ 10)
    ∧ (MockData.generate_student_data "STU-001" "João Silva"
        ["Mathematics", "History"]
        ⟨fun _ => 1 / 2, fun _ => "Prof. Silva", fun _ => 1,
         fun _ _ => "TASK-1000", fun _ _ => "2026-10-13"⟩).focus_areas
        = ((MockData.generate_student_data "STU-001" "João Silva"
            ["Mathematics", "History"]
            ⟨fun _ => 1 / 2, fun _ => "Prof. Silva", fun _ => 1,
             fun _ _ => "TASK-1000", fun _ _ => "2026-10-13"⟩).grades.filter
                (fun g => g.grade < 5)).map (fun g => g.course_name)
    ∧ (MockData.generate_student_data "STU-001" "João Silva"
        ["Mathematics", "History"]
        ⟨fun _ => 1 / 2, fun _ => "Prof. Silva", fun _ => 1,
         fun _ _ => "TASK-1000", fun _ _ => "2026-10-13"⟩).grades.map
            (fun g => g.course_name)
        = (MockData.generate_student_data "STU-001" "João Silva"
            ["Mathematics", "History"]
            ⟨fun _ => 1 / 2, fun _ => "Prof. Silva", fun _ => 1,
             fun _ _ => "TASK-1000", fun _ _ => "2026-10-13"⟩).enrolled_courses.map
                (fun c => c.course_name) :=
  C10_student_data_invariants "STU-001" "João Silva" ["Mathematics", "History"]
    ⟨fun _ => 1 / 2, fun _ => "Prof. Silva", fun _ => 1,
     fun _ _ => "TASK-1000", fun _ _ => "2026-10-13"⟩
    (fun _ => ⟨by norm_num, by norm_num⟩)

/-! ## Claims -/

/-- C1 fails as stated: a gateway failure at the `with mcp_client:`
context entry — the session establishment that fetching the remote
catalog goes through — sits outside the try/except, so the error
propagates with NO invocation attempt at all (the attempt trace is
empty), even though the fixed-local-set invocation would have succeeded
and the claim requires exactly one such attempt whose success is
returned. -/
theorem C1_gateway_entry_counterexample :
    Orchestrator.create_orchestrator_agent_runtime "student"
        (.error "gateway connection failed") (.ok [])
        (fun _ => .ok "answer")
      = (.error "gateway connection failed", [])
    ∧ (Orchestrator.create_orchestrator_agent_runtime "student"
        (.error "gateway connection failed") (.ok [])
        (fun _ => .ok "answer")).2 ≠ [Orchestrator.base_tools] := by
  refine ⟨rfl, ?_⟩
  decide

/-- C1 amended: once the gateway session is established, a failure of the
catalog listing or of the model invocation using the unioned tool set
leads to exactly one further invocation attempt using only the fixed
local tool set, whose outcome is the function's outcome (a success is
returned, a failure is propagated with no further retry); a failure to
establish the gateway session itself propagates immediately with no
invocation attempt and no fallback. -/
theorem C1_tool_fallback_amended (persona : String)
    (entry : Except String Unit)
    (fetch : Except String (List String))
    (inv : List String → Except String String)
    (hp : persona ∈ Orchestrator.valid_personas) :
    (∀ e, entry = .error e →
      Orchestrator.create_orchestrator_agent_runtime persona entry fetch inv
        = (.error e, []))
    ∧ (∀ e, entry = .ok () → fetch = .error e →
      Orchestrator.create_orchestrator_agent_runtime persona entry fetch inv
        = (inv Orchestrator.base_tools, [Orchestrator.base_tools]))
    ∧ (∀ mcp e, entry = .ok () → fetch = .ok mcp →
        inv (Orchestrator.base_tools ++ mcp) = .error e →
      Orchestrator.create_orchestrator_agent_runtime persona entry fetch inv
        = (inv Orchestrator.base_tools,
           [Orchestrator.base_tools ++ mcp, Orchestrator.base_tools])) := by
  refine ⟨?_, ?_, ?_⟩
  · intro e he
    subst he
    simp [Orchestrator.create_orchestrator_agent_runtime, hp]
  · intro e hent hf
    subst hent
    subst hf
    simp [Orchestrator.create_orchestrator_agent_runtime, hp]
  · intro mcp e hent hf hi
    subst hent
    subst hf
    simp [Orchestrator.create_orchestrator_agent_runtime, hp, hi]

/-- Witness for the amended C1 at concrete inputs: with the session
established, a failing catalog fetch and a succeeding local-only
invocation return the response; a failing session entry propagates with
an empty attempt trace. -/
theorem C1_tool_fallback_amended_witness :
    Orchestrator.create_orchestrator_agent_runtime "student" (.ok ())
        (.error "listing failed") (fun _ => .ok "answer")
      = (.ok "answer", [Orchestrator.base_tools])
    ∧ Orchestrator.create_orchestrator_agent_runtime "student"
        (.error "gateway connection failed") (.error "listing failed")
        (fun _ => .ok "answer")
      = (.error "gateway connection failed", []) := by
  constructor
  · have h := (C1_tool_fallback_amended "student" (.ok ())
      (.error "listing failed") (fun _ => .ok "answer") (by decide)).2.1
      "listing failed" rfl rfl
    simpa using h
  · exact (C1_tool_fallback_amended "student" (.error "gateway connection failed")
      (.error "listing failed") (fun _ => .ok "answer") (by decide)).1
      "gateway connection failed" rfl

/-- C2: persona resolution returns `student` whenever the directory call
fails, no user's phone attribute matches, or the first matching user has
no persona attribute; the embedding is a total function, so no exception
escapes in any of these cases. -/
theorem C2_persona_default (phone err : String)
    (users pre post : List LambdaSns.CognitoUser) (u : LambdaSns.CognitoUser)
    (hNoMatch : ∀ v ∈ users,
      LambdaSns.phoneMatches v (LambdaSns.normalize_phone phone) = false)
    (hPre : ∀ v ∈ pre,
      LambdaSns.phoneMatches v (LambdaSns.normalize_phone phone) = false)
    (hU : LambdaSns.phoneMatches u (LambdaSns.normalize_phone phone) = true)
    (hNoPersona : (LambdaSns.scanAttributes u.attributes).2 = none) :
    LambdaSns.get_user_persona_by_phone (.error err) phone = "student"
    ∧ LambdaSns.get_user_persona_by_phone (.ok users) phone = "student"
    ∧ LambdaSns.get_user_persona_by_phone (.ok (pre ++ u :: post)) phone = "student" := by
  refine ⟨rfl, ?_, ?_⟩
  · exact findPersona_of_no_match hNoMatch
  · rw [LambdaSns.get_user_persona_by_phone, findPersona_first_match hPre hU]
    simp [LambdaSns.personaOfUser, hNoPersona, truthyStr]

/-- Witness for C2 at concrete inputs: a failing directory call, a
directory with no matching phone, and a matching user without the persona
attribute all resolve to `student`. -/
theorem C2_persona_default_witness :
    LambdaSns.get_user_persona_by_phone (.error "service down") "5511999990000" = "student"
    ∧ LambdaSns.get_user_persona_by_phone
        (.ok [⟨"alice", [("phone_number", "+15550001111"), ("custom:persona", "teacher")]⟩])
        "5511999990000" = "student"
    ∧ LambdaSns.get_user_persona_by_phone
        (.ok ([] ++ ⟨"bob", [("phone_number", "+5511999990000")]⟩ :: []))
        "5511999990000" = "student" :=
  C2_persona_default "5511999990000" "service down"
    [⟨"alice", [("phone_number", "+15550001111"), ("custom:persona", "teacher")]⟩]
    [] [] ⟨"bob", [("phone_number", "+5511999990000")]⟩
    (by decide) (by decide) (by decide) (by decide)

/-- C6: a record whose first change value carries a `statuses` key, or has
no `messages` entries, produces no external call at all (no runtime
invocation, no outbound or read-receipt message), and the handler
continues with the remaining records exactly as if the record were not
there. -/
theorem C6_status_only_skipped (env : LambdaSns.HandlerEnv)
    (r : LambdaSns.SnsRecord) (value : LambdaSns.WebhookValue)
    (vs : List LambdaSns.WebhookValue) (rest : List LambdaSns.SnsRecord)
    (hchanges : r.changes = value :: vs)
    (h : value.hasStatuses = true ∨ value.messages = []) :
    LambdaSns.processRecord env r = (.ok (), [])
    ∧ LambdaSns.lambda_handler env (r :: rest) = LambdaSns.lambda_handler env rest := by
  have hpr : LambdaSns.processRecord env r = (.ok (), []) := by
    rcases h with h | h
    · simp [LambdaSns.processRecord, hchanges, h]
    · cases hs : value.hasStatuses with
      | true => simp [LambdaSns.processRecord, hchanges, hs]
      | false => simp [LambdaSns.processRecord, hchanges, hs, h]
  refine ⟨hpr, ?_⟩
  show LambdaSns.runRecords env (r :: rest) = LambdaSns.runRecords env rest
  rw [LambdaSns.runRecords, hpr]
  obtain ⟨res, more⟩ := LambdaSns.runRecords env rest
  simp

/-- Witness for C6 at a concrete input: a status-only record leaves the
handler outcome of the remaining (empty) record list unchanged. -/
theorem C6_status_only_skipped_witness :
    LambdaSns.processRecord
        { directory := .ok [], sendRead := fun _ => .ok (),
          runtime := fun _ _ => .ok "ok", now := ⟨2026, 10, 12, 9, 30⟩,
          sha256hex := fun _ => "" }
        ⟨[⟨true, [], []⟩]⟩ = (.ok (), [])
    ∧ LambdaSns.lambda_handler
        { directory := .ok [], sendRead := fun _ => .ok (),
          runtime := fun _ _ => .ok "ok", now := ⟨2026, 10, 12, 9, 30⟩,
          sha256hex := fun _ => "" }
        [⟨[⟨true, [], []⟩]⟩]
      = LambdaSns.lambda_handler
        { directory := .ok [], sendRead := fun _ => .ok (),
          runtime := fun _ _ => .ok "ok", now := ⟨2026, 10, 12, 9, 30⟩,
          sha256hex := fun _ => "" } [] :=
  C6_status_only_skipped _ _ ⟨true, [], []⟩ [] [] rfl (Or.inl rfl)

/-- Every validation failure of `invoke` ahead of (and including) the
memory-id resolution yields an error with an empty effect trace. -/
theorem invoke_error_of_memory_id (payload : Orchestrator.Payload)
    (sessionId cache : Option String) (memClientReady : Bool)
    (ssm : Except String String) (envMemoryId : Option String)
    (mcpEnter : Except String Unit)
    (fetch : Except String (List String))
    (inv : List String → Except String String) (msg : String)
    (hm : Orchestrator.get_memory_id payload cache ssm envMemoryId = .error msg) :
    (∃ e, (Orchestrator.invoke payload sessionId cache memClientReady ssm
        envMemoryId mcpEnter fetch inv).1 = .error e)
    ∧ (Orchestrator.invoke payload sessionId cache memClientReady ssm
        envMemoryId mcpEnter fetch inv).2 = [] := by
  unfold Orchestrator.invoke
  cases hft : Orchestrator.firstTruthy payload.inputText payload.prompt with
  | none => exact ⟨⟨_, rfl⟩, rfl⟩
  | some m =>
    cases htp : truthyStr payload.persona with
    | none => exact ⟨⟨_, rfl⟩, rfl⟩
    | some persona =>
      cases htu : truthyStr payload.user_id with
      | none => exact ⟨⟨_, rfl⟩, rfl⟩
      | some uid =>
        cases hts : truthyStr sessionId with
        | none => exact ⟨⟨_, rfl⟩, rfl⟩
        | some sid => simp [hm]

/-- C3: the derived session id equals the spec formula
`"whatsapp-" + cleaned phone + "-" + YYYY-MM-DD-HH bucket + "-" +
first 8 hex chars of sha256(raw phone)`; two derivations for the same
phone within the same UTC hour bucket agree (whatever the minutes); and a
derivation for the same phone one hour later differs. -/
theorem C3_session_id_derivation (sha : String → String) (phone : String)
    (t t1 t2 : LambdaSns.UTCTime)
    (hy : t1.year = t2.year) (hmo : t1.month = t2.month)
    (hd : t1.day = t2.day) (hh : t1.hour = t2.hour)
    (ht : t.hour < 24) :
    LambdaSns.session_id sha phone t = LambdaSns.session_id_spec sha phone t
    ∧ LambdaSns.session_id sha phone t1 = LambdaSns.session_id sha phone t2
    ∧ LambdaSns.session_id sha phone t
        ≠ LambdaSns.session_id sha phone (LambdaSns.addHour t) := by
  refine ⟨rfl, ?_, ?_⟩
  · unfold LambdaSns.session_id LambdaSns.hour_timestamp
    rw [hy, hmo, hd, hh]
  · intro heq
    have hbucket := hour_timestamp_of_session_id_eq sha phone t
      (LambdaSns.addHour t) heq
    have e1 : lastTwoVal (LambdaSns.hour_timestamp t) = t.hour :=
      lastTwoVal_hour_timestamp t (by omega)
    have e2 : lastTwoVal (LambdaSns.hour_timestamp (LambdaSns.addHour t))
        = (LambdaSns.addHour t).hour := by
      refine lastTwoVal_hour_timestamp _ ?_
      rw [addHour_hour]
      split <;> omega
    have heqh : t.hour = (LambdaSns.addHour t).hour := by
      rw [← e1, ← e2, hbucket]
    rw [addHour_hour] at heqh
    by_cases hlt : t.hour < 23
    · rw [if_pos hlt] at heqh
      omega
    · rw [if_neg hlt] at heqh
      omega

/-- Witness for C3 at concrete inputs: two instants in the same hour
bucket (different minutes) give the same id, and one hour later differs. -/
theorem C3_session_id_derivation_witness :
    LambdaSns.session_id (fun _ => "aabbccdd00112233") "+5511999990000" ⟨2026, 10, 12, 9, 30⟩
      = LambdaSns.session_id_spec (fun _ => "aabbccdd00112233") "+5511999990000" ⟨2026, 10, 12, 9, 30⟩
    ∧ LambdaSns.session_id (fun _ => "aabbccdd00112233") "+5511999990000" ⟨2026, 10, 12, 9, 5⟩
      = LambdaSns.session_id (fun _ => "aabbccdd00112233") "+5511999990000" ⟨2026, 10, 12, 9, 45⟩
    ∧ LambdaSns.session_id (fun _ => "aabbccdd00112233") "+5511999990000" ⟨2026, 10, 12, 9, 30⟩
      ≠ LambdaSns.session_id (fun _ => "aabbccdd00112233") "+5511999990000"
          (LambdaSns.addHour ⟨2026, 10, 12, 9, 30⟩) :=
  C3_session_id_derivation (fun _ => "aabbccdd00112233") "+5511999990000"
    ⟨2026, 10, 12, 9, 30⟩ ⟨2026, 10, 12, 9, 5⟩ ⟨2026, 10, 12, 9, 45⟩
    rfl rfl rfl rfl (by decide)

/-- C4: a payload in which both `inputText` and `prompt` are absent or
empty, or `persona` is absent, or `user_id` is absent, makes `invoke` fail
with an empty effect trace: no memory configuration is constructed and no
model call is made. -/
theorem C4_payload_validation (payload : Orchestrator.Payload)
    (sessionId cache : Option String) (memClientReady : Bool)
    (ssm : Except String String) (envMemoryId : Option String)
    (mcpEnter : Except String Unit)
    (fetch : Except String (List String))
    (inv : List String → Except String String)
    (h : (truthyStr payload.inputText = none ∧ truthyStr payload.prompt = none)
        ∨ payload.persona = none ∨ payload.user_id = none) :
    (∃ e, (Orchestrator.invoke payload sessionId cache memClientReady ssm
        envMemoryId mcpEnter fetch inv).1 = .error e)
    ∧ (Orchestrator.invoke payload sessionId cache memClientReady ssm
        envMemoryId mcpEnter fetch inv).2 = [] := by
  unfold Orchestrator.invoke
  rcases h with ⟨h1, h2⟩ | hp | hu
  · have hft : Orchestrator.firstTruthy payload.inputText payload.prompt = none := by
      simp [Orchestrator.firstTruthy, h1, h2]
    simp [hft]
  · cases hft : Orchestrator.firstTruthy payload.inputText payload.prompt with
    | none => exact ⟨⟨_, rfl⟩, rfl⟩
    | some m =>
      have htp : truthyStr payload.persona = none := by simp [hp, truthyStr]
      simp [htp]
  · cases hft : Orchestrator.firstTruthy payload.inputText payload.prompt with
    | none => exact ⟨⟨_, rfl⟩, rfl⟩
    | some m =>
      cases htp : truthyStr payload.persona with
      | none => exact ⟨⟨_, rfl⟩, rfl⟩
      | some persona =>
        have htu : truthyStr payload.user_id = none := by simp [hu, truthyStr]
        simp [htp, htu]

/-- Witness for C4 at a concrete input: a payload with a query but no
`persona` is rejected with no effects performed. -/
theorem C4_payload_validation_witness :
    (∃ e, (Orchestrator.invoke
        ⟨some "hello", none, none, some "u1", none, none, none⟩
        (some "session-1") none false (.ok "mem-1") none
        (.ok ()) (.ok []) (fun _ => .ok "resp")).1 = .error e)
    ∧ (Orchestrator.invoke
        ⟨some "hello", none, none, some "u1", none, none, none⟩
        (some "session-1") none false (.ok "mem-1") none
        (.ok ()) (.ok []) (fun _ => .ok "resp")).2 = [] :=
  C4_payload_validation ⟨some "hello", none, none, some "u1", none, none, none⟩
    (some "session-1") none false (.ok "mem-1") none (.ok ()) (.ok [])
    (fun _ => .ok "resp") (Or.inr (Or.inl rfl))

/-- C5: `get_memory_id` consults the payload key, the process cache, the
SSM parameter, and the `MEMORY_ID` environment variable in that order and
returns the first value found; when all four are exhausted it errs, and
`invoke` then fails with an empty effect trace: no memory configuration,
no orchestrator agent, no model call. -/
theorem C5_memory_id_resolution :
    (∀ (p : Orchestrator.Payload) (cache : Option String)
        (ssm : Except String String) (env : Option String) (m : String),
      p.memory_id = some m →
        Orchestrator.get_memory_id p cache ssm env = .ok (m, cache))
    ∧ (∀ (p : Orchestrator.Payload) (cache : Option String)
        (ssm : Except String String) (env : Option String) (c : String),
      p.memory_id = none → truthyStr cache = some c →
        Orchestrator.get_memory_id p cache ssm env = .ok (c, cache))
    ∧ (∀ (p : Orchestrator.Payload) (cache : Option String)
        (env : Option String) (v : String),
      p.memory_id = none → truthyStr cache = none →
        Orchestrator.get_memory_id p cache (.ok v) env = .ok (v, some v))
    ∧ (∀ (p : Orchestrator.Payload) (cache : Option String)
        (s : String) (env : Option String) (m : String),
      p.memory_id = none → truthyStr cache = none → truthyStr env = some m →
        Orchestrator.get_memory_id p cache (.error s) env = .ok (m, some m))
    ∧ (∀ (p : Orchestrator.Payload) (sessionId cache : Option String)
        (memClientReady : Bool) (s : String) (env : Option String)
        (mcpEnter : Except String Unit)
        (fetch : Except String (List String))
        (inv : List String → Except String String),
      p.memory_id = none → truthyStr cache = none → truthyStr env = none →
        (∃ e, (Orchestrator.invoke p sessionId cache memClientReady (.error s)
            env mcpEnter fetch inv).1 = .error e)
        ∧ (Orchestrator.invoke p sessionId cache memClientReady (.error s)
            env mcpEnter fetch inv).2 = []) := by
  refine ⟨?_, ?_, ?_, ?_, ?_⟩
  · intro p cache ssm env m hm
    simp [Orchestrator.get_memory_id, hm]
  · intro p cache ssm env c hm hc
    simp [Orchestrator.get_memory_id, hm, hc]
  · intro p cache env v hm hc
    simp [Orchestrator.get_memory_id, hm, hc]
  · intro p cache s env m hm hc he
    simp [Orchestrator.get_memory_id, hm, hc, he]
  · intro p sessionId cache memClientReady s env mcpEnter fetch inv hm hc he
    have herr : Orchestrator.get_memory_id p cache (.error s) env
        = .error ("memory_id is required but not found in payload, SSM, or environment. "
          ++ "Please provide memory_id in the request payload or configure it in SSM.") := by
      simp [Orchestrator.get_memory_id, hm, hc, he]
    exact invoke_error_of_memory_id p sessionId cache memClientReady (.error s)
      env mcpEnter fetch inv _ herr

/-- Witness for C5 at concrete inputs: each source in the order, and the
exhausted case failing with no effects. -/
theorem C5_memory_id_resolution_witness :
    Orchestrator.get_memory_id
        ⟨some "q", none, some "student", some "u", none, none, some "mem-payload"⟩
        (some "mem-cache") (.ok "mem-ssm") (some "mem-env")
      = .ok ("mem-payload", some "mem-cache")
    ∧ Orchestrator.get_memory_id
        ⟨some "q", none, some "student", some "u", none, none, none⟩
        (some "mem-cache") (.ok "mem-ssm") (some "mem-env")
      = .ok ("mem-cache", some "mem-cache")
    ∧ Orchestrator.get_memory_id
        ⟨some "q", none, some "student", some "u", none, none, none⟩
        none (.ok "mem-ssm") (some "mem-env")
      = .ok ("mem-ssm", some "mem-ssm")
    ∧ Orchestrator.get_memory_id
        ⟨some "q", none, some "student", some "u", none, none, none⟩
        none (.error "no ssm") (some "mem-env")
      = .ok ("mem-env", some "mem-env")
    ∧ ((∃ e, (Orchestrator.invoke
          ⟨some "q", none, some "student", some "u", none, none, none⟩
          (some "session-1") none false (.error "no ssm") none
          (.ok ()) (.ok []) (fun _ => .ok "resp")).1 = .error e)
       ∧ (Orchestrator.invoke
          ⟨some "q", none, some "student", some "u", none, none, none⟩
          (some "session-1") none false (.error "no ssm") none
          (.ok ()) (.ok []) (fun _ => .ok "resp")).2 = []) :=
  ⟨C5_memory_id_resolution.1 _ _ _ _ _ rfl,
   C5_memory_id_resolution.2.1 _ _ _ _ _ rfl rfl,
   C5_memory_id_resolution.2.2.1 _ _ _ _ rfl rfl,
   C5_memory_id_resolution.2.2.2.1 _ _ _ _ _ rfl rfl rfl,
   C5_memory_id_resolution.2.2.2.2 _ _ _ _ _ _ _ _ _ rfl rfl rfl⟩

/-- C9: the read acknowledgment is issued first, before any orchestration
work, when a message record is processed; a failing send inside
`markAsRead` is caught and becomes `none` (the embedding is total, so the
failure cannot escape); and the handler's outcome is entirely independent
of the read-receipt outcome. -/
theorem C9_read_ack_best_effort (env : LambdaSns.HandlerEnv)
    (msgId err : String) (send1 send2 : String → Except String Unit)
    (records : List LambdaSns.SnsRecord)
    (r : LambdaSns.SnsRecord) (value : LambdaSns.WebhookValue)
    (vs : List LambdaSns.WebhookValue) (message : LambdaSns.WhatsAppMessage)
    (ms : List LambdaSns.WhatsAppMessage)
    (hchanges : r.changes = value :: vs)
    (hstat : value.hasStatuses = false)
    (hmsgs : value.messages = message :: ms)
    (hfail : env.sendRead msgId = .error err) :
    LambdaSns.markAsRead env msgId = none
    ∧ (LambdaSns.processRecord env r).2
        = [.markRead message.msgId,
           .invokeRuntime (LambdaSns.session_id env.sha256hex message.sender env.now)
             { inputText := LambdaSns.messageContent message
               persona := LambdaSns.remapPersona
                 (LambdaSns.get_user_persona_by_phone env.directory message.sender)
               user_id := LambdaSns.clean_phone message.sender
               persona_id := LambdaSns.clean_phone message.sender
               whatsapp_phone_number := message.sender }]
    ∧ LambdaSns.lambda_handler { env with sendRead := send1 } records
      = LambdaSns.lambda_handler { env with sendRead := send2 } records := by
  refine ⟨?_, ?_, lambda_handler_sendRead_irrelevant env send1 send2 records⟩
  · simp [LambdaSns.markAsRead, hfail]
  · obtain ⟨changes⟩ := r
    simp only at hchanges
    subst hchanges
    obtain ⟨hs, msgs, contacts⟩ := value
    simp only at hstat hmsgs
    subst hstat
    subst hmsgs
    simp only [LambdaSns.processRecord, Bool.false_eq_true, if_false]
    split <;> rfl

/-- Witness for C9 at a concrete input: a failing read-receipt send is
swallowed, the acknowledgment precedes the runtime invocation, and the
handler result is unchanged when the receipt send flips from failing to
succeeding. -/
theorem C9_read_ack_best_effort_witness :
    LambdaSns.markAsRead
        { directory := .ok [], sendRead := fun _ => .error "receipt failed",
          runtime := fun _ _ => .ok "done", now := ⟨2026, 10, 12, 9, 30⟩,
          sha256hex := fun _ => "aabbccdd00112233" } "wamid.9" = none
    ∧ (LambdaSns.processRecord
        { directory := .ok [], sendRead := fun _ => .error "receipt failed",
          runtime := fun _ _ => .ok "done", now := ⟨2026, 10, 12, 9, 30⟩,
          sha256hex := fun _ => "aabbccdd00112233" }
        ⟨[⟨false, [⟨some "text", "+5511999990000", "wamid.9", some "oi"⟩], []⟩]⟩).2
        = [.markRead "wamid.9",
           .invokeRuntime
             (LambdaSns.session_id (fun _ => "aabbccdd00112233") "+5511999990000" ⟨2026, 10, 12, 9, 30⟩)
             { inputText := LambdaSns.messageContent ⟨some "text", "+5511999990000", "wamid.9", some "oi"⟩
               persona := LambdaSns.remapPersona
                 (LambdaSns.get_user_persona_by_phone (.ok []) "+5511999990000")
               user_id := LambdaSns.clean_phone "+5511999990000"
               persona_id := LambdaSns.clean_phone "+5511999990000"
               whatsapp_phone_number := "+5511999990000" }]
    ∧ LambdaSns.lambda_handler
        { directory := .ok [], sendRead := fun _ => .error "receipt failed",
          runtime := fun _ _ => .ok "done", now := ⟨2026, 10, 12, 9, 30⟩,
          sha256hex := fun _ => "aabbccdd00112233" }
        [⟨[⟨false, [⟨some "text", "+5511999990000", "wamid.9", some "oi"⟩], []⟩]⟩]
      = LambdaSns.lambda_handler
        { directory := .ok [], sendRead := fun _ => .ok (),
          runtime := fun _ _ => .ok "done", now := ⟨2026, 10, 12, 9, 30⟩,
          sha256hex := fun _ => "aabbccdd00112233" }
        [⟨[⟨false, [⟨some "text", "+5511999990000", "wamid.9", some "oi"⟩], []⟩]⟩] :=
  C9_read_ack_best_effort
    { directory := .ok [], sendRead := fun _ => .error "receipt failed",
      runtime := fun _ _ => .ok "done", now := ⟨2026, 10, 12, 9, 30⟩,
      sha256hex := fun _ => "aabbccdd00112233" }
    "wamid.9" "receipt failed" (fun _ => .error "receipt failed") (fun _ => .ok ())
    [⟨[⟨false, [⟨some "text", "+5511999990000", "wamid.9", some "oi"⟩], []⟩]⟩]
    ⟨[⟨false, [⟨some "text", "+5511999990000", "wamid.9", some "oi"⟩], []⟩]⟩
    ⟨false, [⟨some "text", "+5511999990000", "wamid.9", some "oi"⟩], []⟩
    [] ⟨some "text", "+5511999990000", "wamid.9", some "oi"⟩ []
    rfl rfl rfl rfl

/-- C7: each guarded domain tool, invoked with a persona outside its
allow-list, returns its descriptive access-denial string as a normal
result and performs no work (no mock-data generation, no model call). -/
theorem C7_tool_guards (query sid tid pa ps pt : String)
    (runA runS runT : String → String)
    (hA : pa ≠ "administrator")
    (hS : ps ∉ ["student", "administrator"])
    (hT : pt ∉ ["teacher", "administrator"]) :
    DomainTools.answer_admin_questions query pa runA
      = ("Access denied: This tool is only available for administrator personas. Current persona: "
          ++ pa, [])
    ∧ DomainTools.answer_student_questions query sid ps runS
      = ("Access denied: This tool is only available for student and administrator personas. Current persona: "
          ++ ps, [])
    ∧ DomainTools.answer_teacher_questions query tid pt runT
      = ("Access denied: This tool is only available for teacher and administrator personas. Current persona: "
          ++ pt, []) := by
    refine ⟨?_, ?_, ?_⟩
    · simp [DomainTools.answer_admin_questions, hA]
    · simp [DomainTools.answer_student_questions, hS]
    · simp [DomainTools.answer_teacher_questions, hT]

/-- A directory whose matched user carries the persona attribute `admin`,
a value outside the remap table and outside the three expected personas. -/
def adminAttrDirectory : List LambdaSns.CognitoUser :=
  [⟨"user-x", [("phone_number", "+5511999990000"), ("custom:persona", "admin")]⟩]

/-- The handler environment around that directory. -/
def adminAttrEnv : LambdaSns.HandlerEnv :=
  { directory := .ok adminAttrDirectory
    sendRead := fun _ => .ok ()
    runtime := fun _ _ => .ok "done"
    now := ⟨2026, 10, 12, 9, 30⟩
    sha256hex := fun _ => "aabbccdd00112233" }

/-- An inbound text message record from that user's phone. -/
def adminAttrRecord : LambdaSns.SnsRecord :=
  ⟨[⟨false, [⟨some "text", "+5511999990000", "wamid.x", some "oi"⟩], ["User X"]⟩]⟩

/-- C8 fails as stated: for this inbound message the persona forwarded in
the orchestration payload is the raw directory attribute `admin`, which the
fixed `professor → teacher` remapping leaves unchanged and which is not
one of the three expected values. -/
theorem C8_persona_closed_counterexample :
    (LambdaSns.processRecord adminAttrEnv adminAttrRecord).2
      = [.markRead "wamid.x",
         .invokeRuntime
           (LambdaSns.session_id adminAttrEnv.sha256hex "+5511999990000" adminAttrEnv.now)
           { inputText := "oi", persona := "admin", user_id := "5511999990000",
             persona_id := "5511999990000", whatsapp_phone_number := "+5511999990000" }]
    ∧ "admin" ∉ ["student", "teacher", "administrator"] := by
  constructor
  · decide
  · decide

/-- C8 amended: whenever the raw persona resolved from the directory is in
`{student, professor, teacher, administrator}` — which includes every
failure path, since those default to `student` — the persona forwarded to
the orchestration payload after the fixed remapping is one of the three
expected values, and `professor` in particular is presented as
`teacher`. -/
theorem C8_persona_remap_amended (dir : Except String (List LambdaSns.CognitoUser))
    (phone : String)
    (h : LambdaSns.get_user_persona_by_phone dir phone
      ∈ ["student", "professor", "teacher", "administrator"]) :
    LambdaSns.remapPersona (LambdaSns.get_user_persona_by_phone dir phone)
      ∈ ["student", "teacher", "administrator"]
    ∧ LambdaSns.remapPersona "professor" = "teacher" := by
  refine ⟨?_, rfl⟩
  simp only [List.mem_cons, List.not_mem_nil, or_false] at h
  rcases h with h | h | h | h <;> rw [h] <;> decide

/-- Witness for the amended C8 at a concrete input: a `professor`
directory entry is forwarded as `teacher`. -/
theorem C8_persona_remap_amended_witness :
    LambdaSns.remapPersona (LambdaSns.get_user_persona_by_phone
        (.ok [⟨"prof", [("phone_number", "+5511888880000"), ("custom:persona", "professor")]⟩])
        "+5511888880000")
      ∈ ["student", "teacher", "administrator"]
    ∧ LambdaSns.remapPersona "professor" = "teacher" :=
  C8_persona_remap_amended
    (.ok [⟨"prof", [("phone_number", "+5511888880000"), ("custom:persona", "professor")]⟩])
    "+5511888880000" (by decide)

/-- Witness for C7 at concrete personas outside each allow-list. -/
theorem C7_tool_guards_witness :
    DomainTools.answer_admin_questions "report?" "student" (fun s => s)
      = ("Access denied: This tool is only available for administrator personas. Current persona: student", [])
    ∧ DomainTools.answer_student_questions "report?" "STU-001" "teacher" (fun s => s)
      = ("Access denied: This tool is only available for student and administrator personas. Current persona: teacher", [])
    ∧ DomainTools.answer_teacher_questions "report?" "TEACH-001" "student" (fun s => s)
      = ("Access denied: This tool is only available for teacher and administrator personas. Current persona: student", []) :=
  C7_tool_guards "report?" "STU-001" "TEACH-001" "student" "teacher" "student"
    (fun s => s) (fun s => s) (fun s => s) (by decide) (by decide) (by decide)

